import Mathlib

/-!
Shallow embedding of `packages/zod-to-gql/src/index.ts`.

Schema nodes are modelled as an inductive type mirroring the zod classes the
compiler dispatches on (`instanceof` checks).  The identity-keyed `Map` used
for the type registry is modelled as an association list whose key equality
stands in for JS reference identity: distinct schema instances are
represented by structurally distinct values.
-/

/-- `type ZodCheck = { kind?: string; format?: string; isInt?: boolean }` -/
structure ZodCheck where
  kind : Option String := none
  format : Option String := none
  isInt : Option Bool := none
deriving DecidableEq

/-- The value carried by a `z.literal` node (string, number or boolean). -/
inductive LitValue where
  | str (s : String)
  | num (v : Rat)
  | bool (b : Bool)
deriving DecidableEq

/-- The zod schema classes the compiler distinguishes via `instanceof`. -/
inductive ZodSchema where
  | string (checks : List ZodCheck)
  | number (checks : List ZodCheck)
  | boolean
  | enum (values : List String)
  | array (element : ZodSchema)
  | object (shape : List (String × ZodSchema))
  | literal (value : LitValue)
  | union (options : List ZodSchema)
  | optional (inner : ZodSchema)
  | nullable (inner : ZodSchema)
  | default (inner : ZodSchema)

mutual

/-- Structural equality on schema nodes; stands in for the JS reference
identity used as `Map` key equality (distinct instances are represented by
structurally distinct values). -/
def ZodSchema.beq : ZodSchema → ZodSchema → Bool
  | .string c1, .string c2 => c1 == c2
  | .number c1, .number c2 => c1 == c2
  | .boolean, .boolean => true
  | .enum v1, .enum v2 => v1 == v2
  | .array e1, .array e2 => ZodSchema.beq e1 e2
  | .object s1, .object s2 => beqShape s1 s2
  | .literal l1, .literal l2 => l1 == l2
  | .union o1, .union o2 => beqMembers o1 o2
  | .optional i1, .optional i2 => ZodSchema.beq i1 i2
  | .nullable i1, .nullable i2 => ZodSchema.beq i1 i2
  | .default i1, .default i2 => ZodSchema.beq i1 i2
  | _, _ => false

/-- Pointwise equality of object shapes (field name and field schema). -/
def beqShape : List (String × ZodSchema) → List (String × ZodSchema) → Bool
  | [], [] => true
  | (k1, v1) :: t1, (k2, v2) :: t2 => k1 == k2 && ZodSchema.beq v1 v2 && beqShape t1 t2
  | _, _ => false

/-- Pointwise equality of union member lists. -/
def beqMembers : List ZodSchema → List ZodSchema → Bool
  | [], [] => true
  | h1 :: t1, h2 :: t2 => ZodSchema.beq h1 h2 && beqMembers t1 t2
  | _, _ => false

end

mutual

theorem ZodSchema.beq_refl : (s : ZodSchema) → s.beq s = true
  | .string c => by simp [ZodSchema.beq]
  | .number c => by simp [ZodSchema.beq]
  | .boolean => by simp [ZodSchema.beq]
  | .enum v => by simp [ZodSchema.beq]
  | .array e => by simpa [ZodSchema.beq] using ZodSchema.beq_refl e
  | .object sh => by simpa [ZodSchema.beq] using beqShape_refl sh
  | .literal l => by simp [ZodSchema.beq]
  | .union os => by simpa [ZodSchema.beq] using beqMembers_refl os
  | .optional i => by simpa [ZodSchema.beq] using ZodSchema.beq_refl i
  | .nullable i => by simpa [ZodSchema.beq] using ZodSchema.beq_refl i
  | .default i => by simpa [ZodSchema.beq] using ZodSchema.beq_refl i

theorem beqShape_refl : (l : List (String × ZodSchema)) → beqShape l l = true
  | [] => by simp [beqShape]
  | (k, v) :: t => by simp [beqShape, ZodSchema.beq_refl v, beqShape_refl t]

theorem beqMembers_refl : (l : List ZodSchema) → beqMembers l l = true
  | [] => by simp [beqMembers]
  | h :: t => by simp [beqMembers, ZodSchema.beq_refl h, beqMembers_refl t]

end

/-- JS `String.prototype.toUpperCase` restricted to the ASCII range
(character-wise upper-casing). -/
def jsToUpperCase (s : String) : String :=
  String.mk (s.data.map Char.toUpper)

example : jsToUpperCase "Wine" = "WINE" := by decide

/-- Identity-keyed registry `Map<ZodSchema, string>`, as an association list. -/
abbrev TypeMap := List (ZodSchema × String)

/-- `Map.prototype.get` (and `has`: a `some` result is a hit). -/
def tmGet (m : TypeMap) (k : ZodSchema) : Option String :=
  (m.find? (fun p => p.1.beq k)).map (fun p => p.2)

/-- `Map.prototype.set`: update in place when the key is present, else append. -/
def tmSet (m : TypeMap) (k : ZodSchema) (v : String) : TypeMap :=
  if m.any (fun p => p.1.beq k) then
    m.map (fun p => if p.1.beq k then (p.1, v) else p)
  else m ++ [(k, v)]

/-- `types?.has(schema)` / `types?.get(schema)` on the optional registry. -/
def lookupType (types : Option TypeMap) (s : ZodSchema) : Option String :=
  types.bind (fun m => tmGet m s)

/-- A JS `Record<string, string>` as an association list. -/
abbrev ScalarRecord := List (String × String)

/-- Property access `record.key` (absent key / undefined is `none`). -/
def recGet (m : ScalarRecord) (k : String) : Option String :=
  (m.find? (fun p => p.1 == k)).map (fun p => p.2)

/-- Object spread merge: keys of `override` win over keys of `base`. -/
def mergeRecords (base override : ScalarRecord) : ScalarRecord :=
  base.filter (fun p => (recGet override p.1).isNone) ++ override

/-- `DEFAULT_SCALARS` from the source. -/
def DEFAULT_SCALARS : ScalarRecord :=
  [("uuid", "UUID"), ("datetime", "Datetime"), ("date", "Date"), ("json", "JSON")]

/-- The source's `ZodToGqlOptions` record (`scalars?`, `types?`, `strict?`). -/
structure ZodToGqlOptions where
  scalars : Option ScalarRecord := none
  types : Option TypeMap := none
  strict : Option Bool := none

/-- `unwrapSchema`: strip one `Optional`/`Nullable` layer (marking the field
nullable) or one `Default` layer (not nullable); anything else passes through. -/
def unwrapSchema : ZodSchema → ZodSchema × Bool
  | .optional inner => (inner, true)
  | .nullable inner => (inner, true)
  | .default inner => (inner, false)
  | s => (s, false)

theorem sizeOf_unwrapSchema_le (s : ZodSchema) : sizeOf (unwrapSchema s).1 ≤ sizeOf s := by
  cases s <;> simp [unwrapSchema]

/-- `schema.constructor.name` for the node kinds of the model. -/
def constructorName : ZodSchema → String
  | .string _ => "ZodString"
  | .number _ => "ZodNumber"
  | .boolean => "ZodBoolean"
  | .enum _ => "ZodEnum"
  | .array _ => "ZodArray"
  | .object _ => "ZodObject"
  | .literal _ => "ZodLiteral"
  | .union _ => "ZodUnion"
  | .optional _ => "ZodOptional"
  | .nullable _ => "ZodNullable"
  | .default _ => "ZodDefault"

/-- Whether a node is one of the three nullability/default wrapper kinds. -/
def isWrapperNode : ZodSchema → Bool
  | .optional _ => true
  | .nullable _ => true
  | .default _ => true
  | _ => false

mutual

/-- `zodTypeToGql`: unwrap one nullability layer, resolve the base type, and
append `!` when the field is not optional/nullable. -/
def zodTypeToGql (s : ZodSchema) (scalars : ScalarRecord) (types : Option TypeMap) :
    Except String String :=
  (resolveBaseType (unwrapSchema s).1 scalars types).map
    (fun baseType => if (unwrapSchema s).2 then baseType else baseType ++ "!")
termination_by 2 * sizeOf s + 1
decreasing_by
  simp_wf
  have := sizeOf_unwrapSchema_le s
  omega

/-- `resolveBaseType`: registry lookup first, then dispatch on the node kind. -/
def resolveBaseType (s : ZodSchema) (scalars : ScalarRecord) (types : Option TypeMap) :
    Except String String :=
  match lookupType types s with
  | some registered => .ok registered
  | none =>
    match s with
    | .string checks =>
      if checks.any (fun c => c.kind == some "uuid" || c.format == some "uuid") then
        .ok ((recGet scalars "uuid").getD "String")
      else if checks.any (fun c => c.kind == some "datetime" || c.format == some "datetime") then
        .ok ((recGet scalars "datetime").getD "String")
      else
        .ok "String"
    | .number checks =>
      if checks.any (fun c => c.kind == some "int" || c.isInt == some true) then
        .ok "Int"
      else
        .ok "Float"
    | .boolean => .ok "Boolean"
    | .enum _ => .ok "String"
    | .array element =>
      (zodTypeToGql element scalars types).map (fun itemType => "[" ++ itemType ++ "]")
    | .object _ => .ok ((recGet scalars "json").getD "JSON")
    | .literal value =>
      match value with
      | .str _ => .ok "String"
      | .num v => .ok (if v.den == 1 then "Int" else "Float")
      | .bool _ => .ok "Boolean"
    | .union members =>
      let allStringish := members.all (fun opt =>
        match opt with
        | .string _ => true
        | .enum _ => true
        | .literal (.str _) => true
        | _ => false)
      if !allStringish then
        .error ("Union types can only contain strings, string literals, or enums. " ++
          "For object unions, register each type in the schemas record.")
      else
        .ok "String"
    | _ => .ok "String"
termination_by 2 * sizeOf s
decreasing_by
  simp_wf
  omega

end

/-- `validateFieldSchema`: unwrap one layer; descend into array elements;
fail on an object schema missing from the registry. -/
def validateFieldSchema (s : ZodSchema) (types : TypeMap) (parentType fieldName : String) :
    Except String Unit :=
  match h : (unwrapSchema s).1 with
  | .array element => validateFieldSchema element types parentType fieldName
  | .object shape =>
    if (tmGet types (.object shape)).isSome then
      .ok ()
    else
      .error ("Strict mode: Field \"" ++ fieldName ++ "\" on type \"" ++ parentType ++
        "\" references an unregistered object schema. " ++
        "Add it to the schemas record or disable strict mode.")
  | _ => .ok ()
termination_by sizeOf s
decreasing_by
  have h2 := sizeOf_unwrapSchema_le s
  rw [h] at h2
  simp at h2
  omega

/-- Sequential effectful loop over a list (the source's `for ... of` with
`throw` propagation), specialized to `Except`. -/
def forEx (l : List α) (f : α → Except String Unit) : Except String Unit :=
  match l with
  | [] => .ok ()
  | a :: rest => do
    f a
    forEx rest f

/-- Sequential effectful map over a list (the source's `for ... of` loop
accumulating lines, with `throw` propagation), specialized to `Except`. -/
def mapEx (l : List α) (f : α → Except String String) : Except String (List String) :=
  match l with
  | [] => .ok []
  | a :: rest => do
    let b ← f a
    let bs ← mapEx rest f
    pure (b :: bs)

/-- `validateAllReferences`: walk every field of every object schema in the
record and validate it against the registry. -/
def validateAllReferences (schemas : List (String × ZodSchema)) (types : TypeMap) :
    Except String Unit :=
  forEx schemas fun kv =>
    match kv.2 with
    | .object shape => forEx shape fun f => validateFieldSchema f.2 types kv.1 f.1
    | _ => .ok ()

/-- `zodSchemaToGql`: emit one top-level declaration (object or enum; anything
else throws). -/
def zodSchemaToGql (name : String) (schema : ZodSchema)
    (options : ZodToGqlOptions := {}) : Except String String :=
  let scalars := mergeRecords DEFAULT_SCALARS (options.scalars.getD [])
  let types := options.types
  match schema with
  | .object shape => do
    let fieldLines ← mapEx shape fun kv => do
      let gqlType ← zodTypeToGql kv.2 scalars types
      pure ("  " ++ kv.1 ++ ": " ++ gqlType)
    pure (String.intercalate "\n" (("type " ++ name ++ " \x7b") :: fieldLines ++ ["\x7d"]))
  | .enum values =>
    pure (String.intercalate "\n"
      (("enum " ++ name ++ " \x7b") :: values.map (fun v => "  " ++ jsToUpperCase v) ++ ["\x7d"]))
  | _ => .error ("Top-level schema must be ZodObject or ZodEnum, got " ++ constructorName schema)

/-- `zodSchemasToGql` (the record overload of `zodToGql`): build the registry
from the record (merged over any user-supplied `types`), optionally run the
strict validation pass, then emit every declaration with the full registry
and join with blank lines. -/
def zodSchemasToGql (schemas : List (String × ZodSchema))
    (options : ZodToGqlOptions := {}) : Except String String := do
  let types := schemas.foldl (fun m kv => tmSet m kv.2 kv.1) (options.types.getD [])
  let mergedOptions : ZodToGqlOptions := { options with types := some types }
  if options.strict.getD false then
    validateAllReferences schemas types
  else
    pure ()
  let decls ← mapEx schemas fun kv => zodSchemaToGql kv.1 kv.2 mergedOptions
  pure (String.intercalate "\n\n" decls)

/-- C1 counterexample: the claim says `resolveFieldType(List(Optional(Scalar(integer))))`
is the string `"[Int]"`, but the code appends the non-null `!` for the
unwrapped list itself, producing `"[Int]!"`. -/
theorem C1_counterexample :
    zodTypeToGql (.array (.optional (.number [⟨some "int", none, none⟩]))) DEFAULT_SCALARS none =
      .ok "[Int]!" ∧
    (Except.ok "[Int]!" : Except String String) ≠ .ok "[Int]" := by
  constructor
  · simp [zodTypeToGql, resolveBaseType, unwrapSchema, lookupType, recGet, DEFAULT_SCALARS,
      Except.map]
  · simp

/-- C1 (amended): a plain list of an optional integer scalar resolves to
`"[Int]!"` (non-null list, nullable element), while an optional list of a
plain integer scalar resolves to `"[Int!]"` (nullable list, non-null
element): list and element nullability are rendered independently, each
level's `!` determined by that level's own wrapper chain. -/
theorem C1_list_element_nullability :
    zodTypeToGql (.array (.optional (.number [⟨some "int", none, none⟩]))) DEFAULT_SCALARS none =
      .ok "[Int]!" ∧
    zodTypeToGql (.optional (.array (.number [⟨some "int", none, none⟩]))) DEFAULT_SCALARS none =
      .ok "[Int!]" := by
  constructor <;>
    simp [zodTypeToGql, resolveBaseType, unwrapSchema, lookupType, recGet, DEFAULT_SCALARS,
      Except.map]

/-- C3 (code bug): a union whose members are all numeric literals is claimed
(by the spec and by the package's own tests) to resolve to `Int`/`Float`,
but `resolveBaseType`'s union branch only accepts strings, string literals
and enums, and throws for the all-numeric union `z.union([z.literal(1),
z.literal(2)])`. -/
theorem C3_numeric_union_throws :
    resolveBaseType (.union [.literal (.num 1), .literal (.num 2)]) DEFAULT_SCALARS none =
      .error ("Union types can only contain strings, string literals, or enums. " ++
        "For object unions, register each type in the schemas record.") := by
  simp [resolveBaseType, lookupType]

/-- C8 counterexample: the claim says a date-checked string resolves to
`"Date"`, but `resolveBaseType` has no date branch (the `date` entry of
`DEFAULT_SCALARS` is never consulted), so it falls through to `"String"`. -/
theorem C8_counterexample :
    resolveBaseType (.string [⟨some "date", some "date", none⟩]) DEFAULT_SCALARS none =
      .ok "String" ∧
    (Except.ok "String" : Except String String) ≠ .ok "Date" := by
  constructor
  · simp [resolveBaseType, lookupType]
  · simp

/-- C8 (amended): with no scalar overrides and no registry hit, the default
scalar names are uuid-checked string → `UUID`, datetime-checked string →
`Datetime`, plain string → `String`, integer-checked number → `Int`, other
number → `Float`, boolean → `Boolean`; a date-checked string has no
dedicated branch and resolves to `String`. -/
theorem C8_default_scalar_names :
    resolveBaseType (.string [⟨some "uuid", some "uuid", none⟩]) DEFAULT_SCALARS none =
      .ok "UUID" ∧
    resolveBaseType (.string [⟨some "datetime", some "datetime", none⟩]) DEFAULT_SCALARS none =
      .ok "Datetime" ∧
    resolveBaseType (.string [⟨some "date", some "date", none⟩]) DEFAULT_SCALARS none =
      .ok "String" ∧
    resolveBaseType (.string []) DEFAULT_SCALARS none = .ok "String" ∧
    resolveBaseType (.number [⟨some "int", none, some true⟩]) DEFAULT_SCALARS none = .ok "Int" ∧
    resolveBaseType (.number []) DEFAULT_SCALARS none = .ok "Float" ∧
    resolveBaseType .boolean DEFAULT_SCALARS none = .ok "Boolean" := by
  refine ⟨?_, ?_, ?_, ?_, ?_, ?_, ?_⟩ <;>
    simp [resolveBaseType, lookupType, recGet, DEFAULT_SCALARS]

/-- C9 (code bug): enum value emission upper-cases unconditionally, for every
possible options record — `ZodToGqlOptions` has no `preserveEnumCase` field,
so the casing of `"Wine"` cannot be preserved, although the package's own
tests expect `preserveEnumCase: true` to emit values verbatim. -/
theorem C9_enum_case_always_uppercased (options : ZodToGqlOptions) :
    zodSchemaToGql "DrinkType" (.enum ["liquor", "beer", "Wine"]) options =
      .ok "enum DrinkType \x7b\n  LIQUOR\n  BEER\n  WINE\n\x7d" := by
  simp [zodSchemaToGql, jsToUpperCase]
  rfl

/-- C10 (confirmed): an empty-member union that is not in the registry
resolves to `"String"` without error, because the all-string-like membership
check is vacuously true over zero members. -/
theorem C10_empty_union_resolves_string (scalars : ScalarRecord) (types : Option TypeMap)
    (hreg : lookupType types (.union []) = none) :
    resolveBaseType (.union []) scalars types = .ok "String" := by
  simp [resolveBaseType, hreg]

/-- C10 witness: the empty union with no registry at all resolves to `"String"`. -/
theorem C10_witness :
    resolveBaseType (.union []) DEFAULT_SCALARS none = .ok "String" :=
  C10_empty_union_resolves_string DEFAULT_SCALARS none rfl

/-- C4 (code bug): a batch containing a top-level union of two object schemas
registered in the same batch is claimed (by the spec and the package's own
tests) to emit `union Pet = Dog | Cat`, but `zodSchemaToGql`'s top-level
dispatch only accepts `ZodObject` and `ZodEnum` and throws on the union,
failing the whole batch compile. -/
theorem C4_top_level_union_throws :
    zodSchemasToGql
      [("Dog", .object [("breed", .string [])]),
       ("Cat", .object [("meows", .boolean)]),
       ("Pet", .union [.object [("breed", .string [])], .object [("meows", .boolean)]])] {} =
      .error "Top-level schema must be ZodObject or ZodEnum, got ZodUnion" := by
  simp [zodSchemasToGql, zodSchemaToGql, zodTypeToGql, resolveBaseType, unwrapSchema,
    lookupType, tmGet, tmSet, recGet, mergeRecords, DEFAULT_SCALARS, mapEx,
    constructorName, ZodSchema.beq, beqShape, beqMembers, Except.map]
  rfl

/-- C6 counterexample: stacking the two nullability wrappers is claimed to
behave like a single wrapper, but `unwrapSchema` strips only one layer, so
the leftover inner wrapper reaches `resolveBaseType` unhandled and falls
back to `"String"`: `Optional(Nullable(Int))` resolves to `"String"` while
`Optional(Int)` resolves to `"Int"`. -/
theorem C6_counterexample :
    zodTypeToGql (.optional (.nullable (.number [⟨some "int", none, none⟩]))) DEFAULT_SCALARS
      none = .ok "String" ∧
    zodTypeToGql (.optional (.number [⟨some "int", none, none⟩])) DEFAULT_SCALARS none =
      .ok "Int" ∧
    (Except.ok "String" : Except String String) ≠ .ok "Int" := by
  refine ⟨?_, ?_, ?_⟩
  · simp [zodTypeToGql, resolveBaseType, unwrapSchema, lookupType, Except.map]
  · simp [zodTypeToGql, resolveBaseType, unwrapSchema, lookupType, Except.map]
  · simp

/-- Helper: a non-wrapper node passes through `unwrapSchema` unchanged and
is marked non-nullable. -/
theorem unwrapSchema_of_not_wrapper (s : ZodSchema) (hw : isWrapperNode s = false) :
    unwrapSchema s = (s, false) := by
  cases s <;> simp_all [isWrapperNode, unwrapSchema]

/-- C6 (amended): for every non-wrapper node `N` not in the registry,
resolving `Optional(N)` and `Nullable(N)` yields the same string, equal to
resolving `N` directly with its `!` suffix removed; but stacked wrappers do
not collapse to a single wrapper — the inner wrapper falls through to the
`"String"` fallback (see the counterexample). -/
theorem C6_single_wrapper_nullability (N : ZodSchema) (scalars : ScalarRecord)
    (types : Option TypeMap) (hw : isWrapperNode N = false)
    (hreg : lookupType types N = none) :
    zodTypeToGql (.optional N) scalars types = zodTypeToGql (.nullable N) scalars types ∧
    zodTypeToGql (.optional N) scalars types = resolveBaseType N scalars types ∧
    zodTypeToGql N scalars types =
      (resolveBaseType N scalars types).map (fun baseType => baseType ++ "!") := by
  have hu := unwrapSchema_of_not_wrapper N hw
  have ho : unwrapSchema (.optional N) = (N, true) := rfl
  have hn : unwrapSchema (.nullable N) = (N, true) := rfl
  refine ⟨?_, ?_, ?_⟩ <;>
    cases hE : resolveBaseType N scalars types <;>
      simp [zodTypeToGql, ho, hn, hu, hE, Except.map]

/-- C6 witness: the amended claim at the concrete non-wrapper node
`z.number()` with no registry. -/
theorem C6_witness :
    zodTypeToGql (.optional (.number [])) DEFAULT_SCALARS none =
      zodTypeToGql (.nullable (.number [])) DEFAULT_SCALARS none ∧
    zodTypeToGql (.optional (.number [])) DEFAULT_SCALARS none =
      resolveBaseType (.number []) DEFAULT_SCALARS none ∧
    zodTypeToGql (.number []) DEFAULT_SCALARS none =
      (resolveBaseType (.number []) DEFAULT_SCALARS none).map (fun baseType => baseType ++ "!") :=
  C6_single_wrapper_nullability (.number []) DEFAULT_SCALARS none rfl rfl

/-- C7 counterexample: an enum auto-registered by appearing as a named
top-level schema in the batch does not resolve to `"String"` in field
position — the registry lookup short-circuits first, so the field is typed
with the enum's registered name (`status: Status!`, not `status: String!`). -/
theorem C7_counterexample :
    zodSchemasToGql
      [("Status", .enum ["active", "inactive"]),
       ("User", .object [("status", .enum ["active", "inactive"])])] {} =
      .ok "enum Status \x7b\n  ACTIVE\n  INACTIVE\n\x7d\n\ntype User \x7b\n  status: Status!\n\x7d" ∧
    resolveBaseType (.enum ["active", "inactive"]) (mergeRecords DEFAULT_SCALARS [])
      (some (tmSet (tmSet [] (.enum ["active", "inactive"]) "Status")
        (.object [("status", .enum ["active", "inactive"])]) "User")) = .ok "Status" ∧
    (Except.ok "Status" : Except String String) ≠ .ok "String" := by
  refine ⟨?_, ?_, ?_⟩
  · simp [zodSchemasToGql, zodSchemaToGql, zodTypeToGql, resolveBaseType, unwrapSchema,
      lookupType, tmGet, tmSet, recGet, mergeRecords, DEFAULT_SCALARS, mapEx,
      jsToUpperCase, ZodSchema.beq, beqShape, Except.map]
    rfl
  · simp [resolveBaseType, lookupType, tmGet, tmSet, ZodSchema.beq, beqShape]
  · simp

/-- C7 (amended): an enum node in field position resolves to `"String"` only
when it is not in the registry; when it is registered (for example
auto-registered as a named top-level schema of the same batch), the registry
lookup short-circuits and returns its registered name instead. -/
theorem C7_enum_field_resolution (values : List String) (scalars : ScalarRecord)
    (types : Option TypeMap) :
    (lookupType types (.enum values) = none →
      resolveBaseType (.enum values) scalars types = .ok "String") ∧
    (∀ n, lookupType types (.enum values) = some n →
      resolveBaseType (.enum values) scalars types = .ok n) := by
  constructor
  · intro hreg
    simp [resolveBaseType, hreg]
  · intro n hreg
    simp [resolveBaseType, hreg]

/-- C7 witness: the amended claim at a concrete enum, once unregistered and
once registered under the name `E`. -/
theorem C7_witness :
    resolveBaseType (.enum ["a"]) DEFAULT_SCALARS none = .ok "String" ∧
    resolveBaseType (.enum ["a"]) DEFAULT_SCALARS (some [(.enum ["a"], "E")]) = .ok "E" :=
  ⟨(C7_enum_field_resolution ["a"] DEFAULT_SCALARS none).1 rfl,
   (C7_enum_field_resolution ["a"] DEFAULT_SCALARS (some [(.enum ["a"], "E")])).2 "E"
     (by simp [lookupType, tmGet, ZodSchema.beq])⟩

/-- Do-notation reduction helper for `Except`: bind on a success. -/
theorem except_bind_ok (a : α) (f : α → Except String β) :
    (Except.ok a >>= f : Except String β) = f a := rfl

/-- Do-notation reduction helper for `Except`: bind on an error. -/
theorem except_bind_error (e : String) (f : α → Except String β) :
    (Except.error e >>= f : Except String β) = Except.error e := rfl

/-- Do-notation reduction helper for `Except`: `pure` is `ok`. -/
theorem except_pure_eq (a : α) : (pure a : Except String α) = Except.ok a := rfl

/-- C2 counterexample: a field wrapped in two stacked `Optional` layers whose
innermost node is an unregistered object escapes the strict-mode check (the
validator unwraps only one layer), so the strict batch compile succeeds
instead of throwing — and the field degrades to `"String"`, not the JSON
fallback scalar. -/
theorem C2_counterexample :
    zodSchemasToGql
      [("Main", .object [("ref", .optional (.optional (.object [("foo", .string [])])))])]
      { strict := some true } = .ok "type Main \x7b\n  ref: String\n\x7d" := by
  simp [zodSchemasToGql, zodSchemaToGql, zodTypeToGql, resolveBaseType, unwrapSchema,
    lookupType, tmGet, tmSet, recGet, mergeRecords, DEFAULT_SCALARS, mapEx,
    validateAllReferences, forEx, validateFieldSchema, ZodSchema.beq, beqShape, Except.map,
    except_bind_ok, except_bind_error, except_pure_eq]
  rfl

/-- C2 (amended): in a batch whose named object schema has a field that the
validator's traversal — one wrapper layer unwrapped per step, then list
descent — resolves to an object schema not in the assembled registry (here a
bare unregistered object field), strict mode fails with an error naming both
the field and its parent type, while the same batch without `strict`
succeeds and emits the field with the configured JSON fallback scalar
(default `JSON`) as its base type; redundantly stacked wrappers escape the
check entirely (see the counterexample). -/
theorem C2_strict_error_and_json_fallback (pn fn : String)
    (ishape : List (String × ZodSchema))
    (hreg : tmGet [(ZodSchema.object [(fn, ZodSchema.object ishape)], pn)]
      (ZodSchema.object ishape) = none) :
    zodSchemasToGql [(pn, .object [(fn, .object ishape)])] { strict := some true } =
      .error ("Strict mode: Field \"" ++ fn ++ "\" on type \"" ++ pn ++
        "\" references an unregistered object schema. " ++
        "Add it to the schemas record or disable strict mode.") ∧
    zodSchemasToGql [(pn, .object [(fn, .object ishape)])] {} =
      .ok ("type " ++ pn ++ " \x7b\n  " ++ fn ++ ": JSON!\n\x7d") := by
  constructor
  · simp [zodSchemasToGql, tmSet, validateAllReferences, forEx, validateFieldSchema,
      unwrapSchema, hreg, except_bind_ok, except_bind_error, except_pure_eq]
  · simp only [zodSchemasToGql, zodSchemaToGql, zodTypeToGql, resolveBaseType, unwrapSchema,
      lookupType, tmSet, recGet, mergeRecords, DEFAULT_SCALARS, mapEx, hreg,
      except_bind_ok, except_bind_error, except_pure_eq, Except.map]
    simp [hreg, except_bind_ok, except_pure_eq, String.intercalate, String.intercalate.go]
    apply String.ext
    simp

/-- C2 witness: the amended claim at a concrete batch: type `Main` with field
`ref` holding an unregistered object schema. -/
theorem C2_witness :
    zodSchemasToGql [("Main", .object [("ref", .object [("foo", .string [])])])]
      { strict := some true } =
      .error ("Strict mode: Field \"" ++ "ref" ++ "\" on type \"" ++ "Main" ++
        "\" references an unregistered object schema. " ++
        "Add it to the schemas record or disable strict mode.") ∧
    zodSchemasToGql [("Main", .object [("ref", .object [("foo", .string [])])])] {} =
      .ok ("type " ++ "Main" ++ " \x7b\n  " ++ "ref" ++ ": JSON!\n\x7d") :=
  C2_strict_error_and_json_fallback "Main" "ref" [("foo", .string [])]
    (by simp [tmGet, ZodSchema.beq, beqShape])

/-- C5 (confirmed): in a two-schema batch where `B`'s field holds `A`'s
schema node, the emitted declaration for `B` types that field as `A`'s
registered name followed by `!`, in both input orders, because the full
registry is assembled before any declaration is emitted.  The hypotheses fix
the two nodes as distinct instances and name the (order-independent)
declaration emitted for `A` under the fully assembled registry. -/
theorem C5_cross_reference_both_orders (nA nB f dA : String)
    (shapeA : List (String × ZodSchema))
    (hne : ZodSchema.beq (ZodSchema.object shapeA)
      (ZodSchema.object [(f, ZodSchema.object shapeA)]) = false)
    (hne' : ZodSchema.beq (ZodSchema.object [(f, ZodSchema.object shapeA)])
      (ZodSchema.object shapeA) = false)
    (hA1 : zodSchemaToGql nA (.object shapeA)
      { types := some [(ZodSchema.object shapeA, nA),
                       (ZodSchema.object [(f, ZodSchema.object shapeA)], nB)] } = .ok dA)
    (hA2 : zodSchemaToGql nA (.object shapeA)
      { types := some [(ZodSchema.object [(f, ZodSchema.object shapeA)], nB),
                       (ZodSchema.object shapeA, nA)] } = .ok dA) :
    zodSchemasToGql [(nA, .object shapeA), (nB, .object [(f, .object shapeA)])] {} =
      .ok (dA ++ "\n\n" ++ ("type " ++ nB ++ " \x7b\n  " ++ f ++ ": " ++ nA ++ "!\n\x7d")) ∧
    zodSchemasToGql [(nB, .object [(f, .object shapeA)]), (nA, .object shapeA)] {} =
      .ok (("type " ++ nB ++ " \x7b\n  " ++ f ++ ": " ++ nA ++ "!\n\x7d") ++ "\n\n" ++ dA) := by
  constructor
  · simp [zodSchemasToGql, tmSet, mapEx, ZodSchema.beq_refl, hne, hne',
      except_bind_ok, except_bind_error, except_pure_eq]
    rw [hA1]
    simp [zodSchemaToGql, zodTypeToGql, resolveBaseType, unwrapSchema, lookupType,
      tmGet, recGet, mergeRecords, DEFAULT_SCALARS, mapEx, ZodSchema.beq_refl, hne, hne',
      except_bind_ok, except_bind_error, except_pure_eq, Except.map,
      String.intercalate, String.intercalate.go]
    apply String.ext
    simp
  · simp [zodSchemasToGql, tmSet, mapEx, ZodSchema.beq_refl, hne, hne',
      except_bind_ok, except_bind_error, except_pure_eq]
    rw [hA2]
    simp [zodSchemaToGql, zodTypeToGql, resolveBaseType, unwrapSchema, lookupType,
      tmGet, recGet, mergeRecords, DEFAULT_SCALARS, mapEx, ZodSchema.beq_refl, hne, hne',
      except_bind_ok, except_bind_error, except_pure_eq, Except.map,
      String.intercalate, String.intercalate.go]
    apply String.ext
    simp

/-- C5 witness: the concrete two-schema batch `A = { id: string }`,
`B = { a: A }`, compiled in both input orders. -/
theorem C5_witness :
    zodSchemasToGql
      [("A", .object [("id", .string [])]),
       ("B", .object [("a", .object [("id", .string [])])])] {} =
      .ok ("type A \x7b\n  id: String!\n\x7d" ++ "\n\n" ++
        ("type " ++ "B" ++ " \x7b\n  " ++ "a" ++ ": " ++ "A" ++ "!\n\x7d")) ∧
    zodSchemasToGql
      [("B", .object [("a", .object [("id", .string [])])]),
       ("A", .object [("id", .string [])])] {} =
      .ok (("type " ++ "B" ++ " \x7b\n  " ++ "a" ++ ": " ++ "A" ++ "!\n\x7d") ++ "\n\n" ++
        "type A \x7b\n  id: String!\n\x7d") :=
  C5_cross_reference_both_orders "A" "B" "a" "type A \x7b\n  id: String!\n\x7d"
    [("id", .string [])]
    (by simp [ZodSchema.beq, beqShape])
    (by simp [ZodSchema.beq, beqShape])
    (by simp [zodSchemaToGql, zodTypeToGql, resolveBaseType, unwrapSchema, lookupType,
          tmGet, recGet, mergeRecords, DEFAULT_SCALARS, mapEx, ZodSchema.beq, beqShape,
          except_bind_ok, except_bind_error, except_pure_eq, Except.map]
        rfl)
    (by simp [zodSchemaToGql, zodTypeToGql, resolveBaseType, unwrapSchema, lookupType,
          tmGet, recGet, mergeRecords, DEFAULT_SCALARS, mapEx, ZodSchema.beq, beqShape,
          except_bind_ok, except_bind_error, except_pure_eq, Except.map]
        rfl)
